import Mathlib

/-!
Shallow embedding of the product CRUD service in `src/app.py` (Flask +
SQLAlchemy).  JSON request bodies are modelled as association lists of
field name to `Value`; the persistent store is a list of product rows
plus the autoincrement counter.  Prices are Python floats, modelled as
`PyFloat`: an exact rational for finite values plus the special values
`inf`, `-inf` and `NaN` that `float(...)` can also produce; timestamps
are abstract natural numbers.
-/

namespace ECom

/-- A JSON value as delivered by `request.get_json()`: a number, a string,
or `null`.  `null` also stands for an absent optional field retrieved via
`data.get(...)`, which yields Python `None`. -/
inductive Value where
  | num (q : ℚ)
  | str (s : String)
  | null
  deriving DecidableEq

/-- A parsed JSON object body: field name to value, first binding wins. -/
def JsonObj := List (String × Value)

instance : DecidableEq JsonObj := by
  unfold JsonObj
  infer_instance

/-- `k in data` / `data[k]` lookup. -/
def JsonObj.find? (d : JsonObj) (k : String) : Option Value :=
  (List.find? (fun kv => kv.1 == k) d).map (fun kv => kv.2)

/-- `data.get(k)`: the value if present, Python `None` (modelled `.null`)
otherwise. -/
def JsonObj.getD (d : JsonObj) (k : String) : Value :=
  (d.find? k).getD .null

/-- Value of a digit run, most significant first. -/
def digitsVal (l : List Char) : Nat :=
  l.foldl (fun a c => 10 * a + (c.toNat - 48)) 0

/-- Optional leading sign; returns whether negative and the rest. -/
def parseSign : List Char → Bool × List Char
  | '+' :: rest => (false, rest)
  | '-' :: rest => (true, rest)
  | l => (false, l)

/-- The rational `±n / 10 ^ scale × 10 ^ e`, built with core `mkRat` so
that it reduces in the kernel. -/
def decValue (neg : Bool) (n : Nat) (scale : Nat) (e : Int) : ℚ :=
  let num : Int := if neg then -(n : Int) else (n : Int)
  let p : Int := e - (scale : Int)
  if 0 ≤ p then mkRat (num * ((10 : Int) ^ p.toNat)) 1
  else mkRat num ((10 : Nat) ^ (-p).toNat)

/-- Mantissa of a Python float literal: `digits`, `digits.digits`,
`.digits` or `digits.`; at least one digit overall.  Returns the digits
as a natural number together with the number of fractional digits. -/
def parseMantissa (l : List Char) : Option (Nat × Nat × List Char) :=
  let ip := l.takeWhile Char.isDigit
  let r1 := l.dropWhile Char.isDigit
  match r1 with
  | '.' :: r2 =>
    let fp := r2.takeWhile Char.isDigit
    let r3 := r2.dropWhile Char.isDigit
    if ip.isEmpty ∧ fp.isEmpty then none
    else some (digitsVal ip * 10 ^ fp.length + digitsVal fp, fp.length, r3)
  | _ =>
    if ip.isEmpty then none
    else some (digitsVal ip, 0, r1)

/-- Optional exponent part `e`/`E`, sign, digits. -/
def parseExp : List Char → Option (Int × List Char)
  | 'e' :: rest =>
    let (neg, r2) := parseSign rest
    let ds := r2.takeWhile Char.isDigit
    let r3 := r2.dropWhile Char.isDigit
    if ds.isEmpty then none
    else some (if neg then -(digitsVal ds : Int) else (digitsVal ds : Int), r3)
  | 'E' :: rest =>
    let (neg, r2) := parseSign rest
    let ds := r2.takeWhile Char.isDigit
    let r3 := r2.dropWhile Char.isDigit
    if ds.isEmpty then none
    else some (if neg then -(digitsVal ds : Int) else (digitsVal ds : Int), r3)
  | l => some (0, l)

/-- Python whitespace as stripped by `float(...)` / `int(...)`. -/
def pyWs (c : Char) : Bool :=
  c == ' ' || c == '\t' || c == '\n' || c == '\r' ||
    c == (Char.ofNat 11) || c == (Char.ofNat 12)

/-- Strip leading and trailing whitespace from a character list. -/
def trimChars (l : List Char) : List Char :=
  (((l.dropWhile pyWs).reverse.dropWhile pyWs)).reverse

/-- Lowercase a single ASCII letter, for the case-insensitive
`inf` / `nan` spellings accepted by Python `float(...)`. -/
def lowerChar (c : Char) : Char :=
  if 'A' ≤ c ∧ c ≤ 'Z' then Char.ofNat (c.toNat + 32) else c

/-- Whether the characters spell `w`, case-insensitively. -/
def isSpelling (l : List Char) (w : String) : Bool :=
  l.map lowerChar == w.toList

/-- PEP 515 underscore handling, as in Python `float(...)` and
`int(...)`: an underscore is legal only directly between two digits and
is dropped; any other underscore makes the literal invalid.  The flag
records whether the previous character was a digit. -/
def stripUS : Bool → List Char → Option (List Char)
  | _, [] => some []
  | prev, c :: rest =>
    if c == '_' then
      if prev then
        match rest with
        | c2 :: _ => if c2.isDigit then stripUS false rest else none
        | [] => none
      else none
    else
      match stripUS c.isDigit rest with
      | none => none
      | some l => some (c :: l)

/-- Rational multiplication written with the smart constructor `mkRat`
so that it reduces in the kernel; `ratMul_eq_mul` below identifies it
with `*` on `ℚ`. -/
def ratMul (a b : ℚ) : ℚ :=
  mkRat (a.num * b.num) (a.den * b.den)

/-- An IEEE-754 double as produced by Python `float(...)`: a finite
value (modelled as the exact rational it denotes), the two infinities,
or NaN. -/
inductive PyFloat where
  | fin (q : ℚ)
  | inf
  | ninf
  | nan
  deriving DecidableEq

/-- The comparison `x <= 0` on a Python float, as evaluated by the
handlers: NaN compares false to everything, `inf <= 0` is false,
`-inf <= 0` is true. -/
def PyFloat.le0 : PyFloat → Bool
  | .fin q => q ≤ 0
  | .inf => false
  | .ninf => true
  | .nan => false

/-- The predicate `x > 0` on a Python float (the spec's invariant):
false of NaN and of `-inf`. -/
def PyFloat.pos : PyFloat → Prop
  | .fin q => 0 < q
  | .inf => True
  | .ninf => False
  | .nan => False

instance : (x : PyFloat) → Decidable x.pos
  | .fin q => inferInstanceAs (Decidable (0 < q))
  | .inf => inferInstanceAs (Decidable True)
  | .ninf => inferInstanceAs (Decidable False)
  | .nan => inferInstanceAs (Decidable False)

/-- Multiplication of a Python float by an integer (IEEE semantics on
the special values), as used by order creation.  The finite case is
`ratMul`, which reduces in the kernel. -/
def PyFloat.mulInt : PyFloat → Int → PyFloat
  | .fin q, n => .fin (ratMul q (n : ℚ))
  | .inf, n => if n = 0 then .nan else if 0 < n then .inf else .ninf
  | .ninf, n => if n = 0 then .nan else if 0 < n then .ninf else .inf
  | .nan, _ => .nan

/-- Python `float(s)` on a string: strips surrounding whitespace and
PEP 515 digit-group underscores, then accepts an optional sign followed
by the case-insensitive spellings `inf`/`infinity`/`nan` or a decimal
mantissa with optional exponent. -/
def parseFloat (s : String) : Option PyFloat :=
  match stripUS false (trimChars s.toList) with
  | none => none
  | some l =>
    let (neg, l1) := parseSign l
    if isSpelling l1 "inf" || isSpelling l1 "infinity" then
      some (if neg then .ninf else .inf)
    else if isSpelling l1 "nan" then some .nan
    else
      match parseMantissa l1 with
      | none => none
      | some (n, sc, l2) =>
        match parseExp l2 with
        | none => none
        | some (e, l3) =>
          if l3.isEmpty then some (.fin (decValue neg n sc e))
          else none

/-- Python `int(s)` on a string: whitespace and PEP 515 digit-group
underscores stripped, then an optional sign and digits only (a decimal
point is rejected). -/
def parseIntStr (s : String) : Option Int :=
  match stripUS false (trimChars s.toList) with
  | none => none
  | some l =>
    let (neg, l1) := parseSign l
    let ds := l1.takeWhile Char.isDigit
    let rest := l1.dropWhile Char.isDigit
    if ds.isEmpty ∨ ¬ rest.isEmpty then none
    else some (if neg then -(digitsVal ds : Int) else (digitsVal ds : Int))

/-- A single-quote character, for reproducing Python error message text. -/
def sq : String := String.singleton (Char.ofNat 39)

/-- Python exceptions raised by `float(...)` / `int(...)`: `ValueError`
is caught by the handlers' dedicated branch (HTTP 400), `TypeError`
falls through to the generic branch (HTTP 500). -/
inductive PyErr where
  | vErr (msg : String)
  | tErr (msg : String)
  deriving DecidableEq

/-- Message of `ValueError` from `float(s)` on an unparseable string. -/
def floatErrMsg (s : String) : String :=
  "could not convert string to float: " ++ sq ++ s ++ sq

/-- Message of `ValueError` from `int(s)` on an unparseable string. -/
def intErrMsg (s : String) : String :=
  "invalid literal for int() with base 10: " ++ sq ++ s ++ sq

/-- Message of `TypeError` from `float(None)`. -/
def floatNoneMsg : String :=
  "float() argument must be a string or a real number, not " ++
    sq ++ "NoneType" ++ sq

/-- Message of `TypeError` from `int(None)`. -/
def intNoneMsg : String :=
  "int() argument must be a string, a bytes-like object or a real " ++
    "number, not " ++ sq ++ "NoneType" ++ sq

deriving instance DecidableEq for Except

/-- Python `float(v)` on a JSON value: numbers pass through as finite
floats, strings are parsed (`ValueError` on failure), `None` raises
`TypeError`. -/
def pyFloat : Value → Except PyErr PyFloat
  | .num q => .ok (.fin q)
  | .str s =>
    match parseFloat s with
    | some q => .ok q
    | none => .error (.vErr (floatErrMsg s))
  | .null => .error (.tErr floatNoneMsg)

/-- Python `int(v)` on a JSON value: numbers truncate toward zero,
strings are parsed as decimal integers, `None` raises `TypeError`. -/
def pyInt : Value → Except PyErr Int
  | .num q => .ok (q.num.tdiv (q.den : Int))
  | .str s =>
    match parseIntStr s with
    | some n => .ok n
    | none => .error (.vErr (intErrMsg s))
  | .null => .error (.tErr intNoneMsg)

/-- A persisted `product` row (`class Product(db.Model)`).  `name` and
`description` hold whatever JSON value the handler assigned (the code
stores `data['name']` / `data.get('description')` unconverted);
`description` is `.null` when absent.  Timestamps are abstract instants
(`datetime.utcnow` at handler-run time). -/
structure Product where
  id : Nat
  name : Value
  description : Value
  price : PyFloat
  stock : Int
  created_at : Nat
  updated_at : Nat
  deriving DecidableEq

/-- A persisted `order` row, as described by the spec (the `Order` model
is imported by `src/test_app.py` but its definition is not under
`src/`). -/
structure OrderRow where
  id : Nat
  product_id : Nat
  quantity : Int
  total_price : PyFloat
  created_at : Nat
  deriving DecidableEq

/-- The persistent database state: the `product` rows in insertion
order together with the autoincrement counter for the next primary key,
and likewise for `order` rows. -/
structure Store where
  rows : List Product
  nextId : Nat
  orders : List OrderRow
  nextOrderId : Nat
  deriving DecidableEq

/-- The store of a freshly created database: no rows, autoincrement
counters at 1. -/
def emptyStore : Store := ⟨[], 1, [], 1⟩

/-- An HTTP response of the service, abstracting the JSON body:
`created` is 201 with the new entity, `okP` 200 with a product,
`okList` 200 with all products, `noContent` 204, `createdO` 201 with a
new order, and `err` carries the status code and the body message
(`str(e)` of the underlying exception). -/
inductive Resp where
  | created (p : Product)
  | okP (p : Product)
  | okList (ps : List Product)
  | noContent
  | createdO (o : OrderRow)
  | err (status : Nat) (msg : String)
  deriving DecidableEq

/-- Whether a response is an error (status 400, 404 or 500). -/
def Resp.isErr : Resp → Bool
  | .err _ _ => true
  | _ => false

/-- How a raised coercion exception leaves the handler: `ValueError` is
caught by the dedicated branch (HTTP 400 with `str(e)`), while
`TypeError` falls to the generic `except Exception` branch (HTTP 500). -/
def errResp (e : PyErr) : Resp :=
  match e with
  | .vErr m => .err 400 m
  | .tErr m => .err 500 m

/-- `str(e)` of the werkzeug `NotFound` exception raised by
`get_or_404`. -/
def notFoundStr : String :=
  "404 Not Found: The requested URL was not found on the server. " ++
    "If you entered the URL manually please check your spelling and " ++
    "try again."

/-- `Product.query.get(id)` / row lookup by primary key. -/
def findRow (st : Store) (id : Nat) : Option Product :=
  st.rows.find? (fun r => r.id == id)

/-- Line 143 of `create_product`: `int(data['stock']) < 0` on the
supplied value. -/
def checkStockCreateVal (v : Value) : Except PyErr Int :=
  match pyInt v with
  | .error e => .error e
  | .ok s => if s < 0 then .error (.vErr "Stock cannot be negative") else .ok s

/-- Lines 142-144 and 150 of `create_product`: if `stock` is present it
is coerced with `int(...)` and rejected when negative; when absent the
constructor uses `int(data.get('stock', 0)) = 0`. -/
def checkStockCreate (d : JsonObj) : Except PyErr Int :=
  match d.find? "stock" with
  | none => .ok 0
  | some v => checkStockCreateVal v

/-- `POST /api/products` (`create_product`, src/app.py lines 126-162):
requires `name` and `price`, rejects `float(price) <= 0` and negative
`int(stock)`, then inserts a row with the next autoincrement id and
both timestamps set to now.  Raised `ValueError`s roll back and give
400; other exceptions roll back and give 500. -/
def create_product (st : Store) (d : JsonObj) (now : Nat) : Resp × Store :=
  if (d.find? "name").isNone then
    (.err 400 "Missing required field: name", st)
  else if (d.find? "price").isNone then
    (.err 400 "Missing required field: price", st)
  else
    match pyFloat (d.getD "price") with
    | .error e => (errResp e, st)
    | .ok price =>
      if price.le0 then (.err 400 "Price must be greater than 0", st)
      else
        match checkStockCreate d with
        | .error e => (errResp e, st)
        | .ok stock =>
          let p : Product :=
            ⟨st.nextId, d.getD "name", d.getD "description", price, stock, now, now⟩
          (.created p, { st with rows := st.rows ++ [p], nextId := st.nextId + 1 })

/-- `GET /api/products/<id>` (`get_product`, src/app.py lines 164-172):
`get_or_404` raises `NotFound` on a missing row, which the handler's own
`except Exception` catches and returns as a 404 with `str(e)`. -/
def get_product (st : Store) (id : Nat) : Resp × Store :=
  match findRow st id with
  | some p => (.okP p, st)
  | none => (.err 404 notFoundStr, st)

/-- `GET /api/products` (`get_products`, src/app.py lines 116-124). -/
def get_products (st : Store) : Resp × Store :=
  (.okList st.rows, st)

/-- Line 182 of `update_product`: `float(data['price']) <= 0` on the
supplied patch value. -/
def checkPriceVal (v : Value) : Except PyErr (Option PyFloat) :=
  match pyFloat v with
  | .error e => .error e
  | .ok pf =>
    if pf.le0 then .error (.vErr "Price must be greater than 0") else .ok (some pf)

/-- Line 181-183 of `update_product`: coerce and range-check `price`
when present in the patch. -/
def checkPriceUpdate (d : JsonObj) : Except PyErr (Option PyFloat) :=
  match d.find? "price" with
  | none => .ok none
  | some v => checkPriceVal v

/-- Line 186 of `update_product`: `int(data['stock']) < 0` on the
supplied patch value. -/
def checkStockVal (v : Value) : Except PyErr (Option Int) :=
  match pyInt v with
  | .error e => .error e
  | .ok s =>
    if s < 0 then .error (.vErr "Stock cannot be negative") else .ok (some s)

/-- Line 185-187 of `update_product`: coerce and range-check `stock`
when present in the patch. -/
def checkStockUpdate (d : JsonObj) : Except PyErr (Option Int) :=
  match d.find? "stock" with
  | none => .ok none
  | some v => checkStockVal v

/-- Lines 189-196 of `update_product`: assign each field present in the
patch to the row object (price/stock already coerced), and refresh
`updated_at` (the column's `onupdate=datetime.utcnow`). -/
def applyPatch (r : Product) (d : JsonObj) (po : Option PyFloat) (so : Option Int)
    (now : Nat) : Product :=
  { r with
    name := ((d.find? "name").getD r.name)
    description := ((d.find? "description").getD r.description)
    price := po.getD r.price
    stock := so.getD r.stock
    updated_at := now }

/-- `PUT /api/products/<id>` (`update_product`, src/app.py lines
174-207).  On a missing row, `get_or_404` raises `NotFound`; since
werkzeug `NotFound` is an `Exception` subclass it is caught by the
handler's `except Exception` branch, which returns 500 — not 404.
Otherwise the patch's fields are validated, applied to the row, the
`updated_at` timestamp is refreshed and the row committed. -/
def update_product (st : Store) (id : Nat) (d : JsonObj) (now : Nat) : Resp × Store :=
  match findRow st id with
  | none => (.err 500 notFoundStr, st)
  | some r =>
    match checkPriceUpdate d with
    | .error e => (errResp e, st)
    | .ok priceOpt =>
      match checkStockUpdate d with
      | .error e => (errResp e, st)
      | .ok stockOpt =>
        let r2 : Product := applyPatch r d priceOpt stockOpt now
        (.okP r2,
          { st with rows := st.rows.map (fun x => if x.id == id then r2 else x) })

/-- `DELETE /api/products/<id>` (`delete_product`, src/app.py lines
209-220).  As in `update_product`, the `NotFound` raised by
`get_or_404` is caught by `except Exception` and surfaced as 500. -/
def delete_product (st : Store) (id : Nat) : Resp × Store :=
  match findRow st id with
  | none => (.err 500 notFoundStr, st)
  | some _ =>
    (.noContent, { st with rows := st.rows.filter (fun x => !(x.id == id)) })

/-- Modelled from the spec: the `Order` model and the `POST /api/orders`
handler are exercised by `src/test_app.py` but their code is not under
`src/`.  Per spec §3/§4.1/§8: `product_id` must resolve to an existing
product, else NotFoundError "product not found" (404) and no row is
written; `total_price = product.price × quantity` is computed once at
creation (a denormalized snapshot); `created_at` is set once.  The
spec's open question on enforcing `quantity > 0` is left as the loosest
variants have it: unenforced. -/
def create_order (st : Store) (pid : Nat) (qty : Int) (now : Nat) : Resp × Store :=
  match findRow st pid with
  | none => (.err 404 "product not found", st)
  | some p =>
    let o : OrderRow := ⟨st.nextOrderId, pid, qty, p.price.mulInt qty, now⟩
    (.createdO o, { st with orders := st.orders ++ [o], nextOrderId := st.nextOrderId + 1 })

/-- A request against the service, as dispatched by the routing layer. -/
inductive Request where
  | createP (d : JsonObj)
  | getP (id : Nat)
  | listP
  | updateP (id : Nat) (d : JsonObj)
  | deleteP (id : Nat)
  | createO (pid : Nat) (qty : Int)

/-- One request step: dispatch to the handler, at abstract time `now`. -/
def step (st : Store) : Request → Nat → Resp × Store
  | .createP d, now => create_product st d now
  | .getP id, _ => get_product st id
  | .listP, _ => get_products st
  | .updateP id d, now => update_product st id d now
  | .deleteP id, _ => delete_product st id
  | .createO pid qty, now => create_order st pid qty now

/-- Run a sequence of timestamped requests, threading the store. -/
def run (st : Store) : List (Request × Nat) → Store
  | [] => st
  | (rq, now) :: rest => run (step st rq now).2 rest

/-- The spec's Product invariant: `price > 0 and stock ≥ 0` (on the
float ordering, so false of a NaN price). -/
def Product.Valid (p : Product) : Prop :=
  p.price.pos ∧ 0 ≤ p.stock

instance (p : Product) : Decidable p.Valid := by
  unfold Product.Valid
  infer_instance

/-- Well-formedness of the store's primary-key bookkeeping: every
primary key is below the autoincrement counter and keys are pairwise
distinct.  (The Product value invariant is deliberately not part of
this: the code lets a NaN price through validation, see C1.) -/
def Store.WF (st : Store) : Prop :=
  (∀ p ∈ st.rows, p.id < st.nextId) ∧
    (st.rows.map Product.id).Nodup

instance (st : Store) : Decidable st.WF := by
  unfold Store.WF
  infer_instance

/-! ### Supporting lemmas -/

theorem checkStockCreate_ok {d : JsonObj} {s : Int}
    (h : checkStockCreate d = .ok s) : 0 ≤ s := by
  unfold checkStockCreate checkStockCreateVal at h
  split at h
  · cases h
    omega
  · split at h
    · cases h
    · split at h
      · cases h
      · cases h
        omega

theorem checkStockCreate_none {d : JsonObj} (h : d.find? "stock" = none) :
    checkStockCreate d = .ok 0 := by
  unfold checkStockCreate
  rw [h]

theorem checkPriceUpdate_ok {d : JsonObj} {po : Option PyFloat} {pf : PyFloat}
    (h : checkPriceUpdate d = .ok po) (hq : po = some pf) : pf.le0 = false := by
  unfold checkPriceUpdate checkPriceVal at h
  subst hq
  split at h
  · cases h
  · split at h
    · cases h
    · split at h
      · cases h
      · rename_i hle
        cases h
        simpa using hle

theorem checkPriceUpdate_none {d : JsonObj} (h : d.find? "price" = none) :
    checkPriceUpdate d = .ok none := by
  unfold checkPriceUpdate
  rw [h]

theorem checkStockUpdate_ok {d : JsonObj} {so : Option Int} {s : Int}
    (h : checkStockUpdate d = .ok so) (hs : so = some s) : 0 ≤ s := by
  unfold checkStockUpdate checkStockVal at h
  subst hs
  split at h
  · cases h
  · split at h
    · cases h
    · split at h
      · cases h
      · cases h
        omega

theorem checkStockUpdate_none {d : JsonObj} (h : d.find? "stock" = none) :
    checkStockUpdate d = .ok none := by
  unfold checkStockUpdate
  rw [h]

theorem findRow_mem {st : Store} {id : Nat} {r : Product}
    (h : findRow st id = some r) : r ∈ st.rows ∧ r.id = id := by
  unfold findRow at h
  refine ⟨List.mem_of_find?_eq_some h, ?_⟩
  have := List.find?_some h
  simpa using this

/-- Looking up a fresh id in rows whose ids are all smaller finds
nothing; hence appending the fresh row makes the lookup find it. -/
theorem findRow_append_fresh {l : List Product} {p : Product} {n : Nat}
    (hn : p.id = n) (hlt : ∀ r ∈ l, r.id < n) :
    (l ++ [p]).find? (fun r => r.id == n) = some p := by
  rw [List.find?_append]
  have hnone : l.find? (fun r => r.id == n) = none := by
    rw [List.find?_eq_none]
    intro x hx
    simp only [beq_iff_eq]
    exact Nat.ne_of_lt (hlt x hx)
  rw [hnone, List.find?_cons_of_pos _ (by simp [hn])]
  rfl

/-! ### Well-formedness preservation -/

theorem create_product_WF {st : Store} {d : JsonObj} {now : Nat}
    (hwf : st.WF) : ((create_product st d now).2).WF := by
  obtain ⟨hlt, hnd⟩ := hwf
  unfold create_product
  split
  · exact ⟨hlt, hnd⟩
  · split
    · exact ⟨hlt, hnd⟩
    · split
      · exact ⟨hlt, hnd⟩
      · split
        · exact ⟨hlt, hnd⟩
        · split
          · exact ⟨hlt, hnd⟩
          · refine ⟨?_, ?_⟩
            · intro p hp
              rcases List.mem_append.1 hp with h | h
              · exact Nat.lt_succ_of_lt (hlt p h)
              · rcases List.mem_singleton.1 h with rfl
                exact Nat.lt_succ_self _
            · simp only [List.map_append, List.map_cons, List.map_nil]
              rw [List.nodup_append]
              refine ⟨hnd, List.nodup_singleton _, ?_⟩
              intro a ha hb
              simp only [List.mem_singleton] at hb
              subst hb
              rcases List.mem_map.1 ha with ⟨r, hr, hrid⟩
              exact absurd hrid (Nat.ne_of_lt (hlt r hr))

theorem update_product_WF {st : Store} {id : Nat} {d : JsonObj} {now : Nat}
    (hwf : st.WF) : ((update_product st id d now).2).WF := by
  obtain ⟨hlt, hnd⟩ := hwf
  unfold update_product
  split
  · exact ⟨hlt, hnd⟩
  · rename_i r hr
    split
    · exact ⟨hlt, hnd⟩
    · rename_i po hpo
      split
      · exact ⟨hlt, hnd⟩
      · rename_i so hso
        have hrmem := findRow_mem hr
        refine ⟨?_, ?_⟩
        · intro p hp
          rcases List.mem_map.1 hp with ⟨x, hx, hfx⟩
          by_cases hxid : (x.id == id) = true
          · rw [if_pos hxid] at hfx
            subst hfx
            show r.id < st.nextId
            exact hlt r hrmem.1
          · rw [if_neg hxid] at hfx
            subst hfx
            exact hlt x hx
        · have hmapid : (st.rows.map
              (fun x => if x.id == id then applyPatch r d po so now else x)).map
                Product.id = st.rows.map Product.id := by
            rw [List.map_map]
            apply List.map_congr_left
            intro x hx
            by_cases hxid : (x.id == id) = true
            · have h1 : x.id = id := by simpa using hxid
              simp only [Function.comp_apply, if_pos hxid]
              show r.id = x.id
              rw [hrmem.2, h1]
            · simp only [Function.comp_apply, if_neg hxid]
          show ((st.rows.map _).map Product.id).Nodup
          rw [hmapid]
          exact hnd

theorem delete_product_WF {st : Store} {id : Nat}
    (hwf : st.WF) : ((delete_product st id).2).WF := by
  obtain ⟨hlt, hnd⟩ := hwf
  unfold delete_product
  split
  · exact ⟨hlt, hnd⟩
  · refine ⟨?_, ?_⟩
    · intro p hp
      exact hlt p (List.mem_of_mem_filter hp)
    · exact hnd.sublist (List.Sublist.map _ (List.filter_sublist _))

theorem create_order_WF {st : Store} {pid : Nat} {qty : Int} {now : Nat}
    (hwf : st.WF) : ((create_order st pid qty now).2).WF := by
  obtain ⟨hlt, hnd⟩ := hwf
  unfold create_order
  split
  · exact ⟨hlt, hnd⟩
  · exact ⟨hlt, hnd⟩

theorem step_WF {st : Store} {rq : Request} {now : Nat}
    (hwf : st.WF) : ((step st rq now).2).WF := by
  cases rq with
  | createP d => exact create_product_WF hwf
  | getP id =>
    show ((get_product st id).2).WF
    unfold get_product
    split
    · exact hwf
    · exact hwf
  | listP => exact hwf
  | updateP id d => exact update_product_WF hwf
  | deleteP id => exact delete_product_WF hwf
  | createO pid qty => exact create_order_WF hwf

theorem run_WF {st : Store} (hwf : st.WF) :
    ∀ rqs : List (Request × Nat), (run st rqs).WF := by
  intro rqs
  induction rqs generalizing st with
  | nil => exact hwf
  | cons hd tl ih => exact ih (step_WF hwf)

theorem emptyStore_WF : emptyStore.WF := by
  refine ⟨?_, ?_⟩ <;> simp [emptyStore, Store.WF]

theorem get_product_err {st : Store} {id : Nat} :
    ((get_product st id).1).isErr = true → (get_product st id).2 = st := by
  unfold get_product
  split
  · intro h
    simp [Resp.isErr] at h
  · intro _
    rfl

theorem create_product_err {st : Store} {d : JsonObj} {now : Nat} :
    ((create_product st d now).1).isErr = true →
      (create_product st d now).2 = st := by
  unfold create_product
  split
  · intro _
    rfl
  · split
    · intro _
      rfl
    · split
      · intro _
        rfl
      · split
        · intro _
          rfl
        · split
          · intro _
            rfl
          · intro h
            simp [Resp.isErr] at h

theorem update_product_err {st : Store} {id : Nat} {d : JsonObj} {now : Nat} :
    ((update_product st id d now).1).isErr = true →
      (update_product st id d now).2 = st := by
  unfold update_product
  split
  · intro _
    rfl
  · split
    · intro _
      rfl
    · split
      · intro _
        rfl
      · intro h
        simp [Resp.isErr] at h

theorem delete_product_err {st : Store} {id : Nat} :
    ((delete_product st id).1).isErr = true → (delete_product st id).2 = st := by
  unfold delete_product
  split
  · intro _
    rfl
  · intro h
    simp [Resp.isErr] at h

theorem create_order_err {st : Store} {pid : Nat} {qty : Int} {now : Nat} :
    ((create_order st pid qty now).1).isErr = true →
      (create_order st pid qty now).2 = st := by
  unfold create_order
  split
  · intro _
    rfl
  · intro h
    simp [Resp.isErr] at h

/-- Auxiliary invariant for permanence of deletion: the store is
well-formed, `id` is strictly below the autoincrement counter (so it can
never be handed out again), and no row has it. -/
def absentFrom (id : Nat) (st : Store) : Prop :=
  st.WF ∧ id < st.nextId ∧ findRow st id = none

theorem create_product_absent {id : Nat} {st : Store} {d : JsonObj} {now : Nat}
    (h : absentFrom id st) : absentFrom id ((create_product st d now).2) := by
  obtain ⟨hwf, hlt, hnone⟩ := h
  refine ⟨create_product_WF hwf, ?_⟩
  unfold create_product
  split
  · exact ⟨hlt, hnone⟩
  · split
    · exact ⟨hlt, hnone⟩
    · split
      · exact ⟨hlt, hnone⟩
      · split
        · exact ⟨hlt, hnone⟩
        · split
          · exact ⟨hlt, hnone⟩
          · refine ⟨Nat.lt_succ_of_lt hlt, ?_⟩
            unfold findRow at hnone ⊢
            rw [List.find?_append, hnone]
            rw [List.find?_cons_of_neg]
            · rfl
            · simp only [beq_iff_eq]
              exact Nat.ne_of_gt hlt

theorem update_product_absent {id : Nat} {st : Store} {id2 : Nat}
    {d : JsonObj} {now : Nat} (h : absentFrom id st) :
    absentFrom id ((update_product st id2 d now).2) := by
  obtain ⟨hwf, hlt, hnone⟩ := h
  refine ⟨update_product_WF hwf, ?_⟩
  unfold update_product
  split
  · exact ⟨hlt, hnone⟩
  · rename_i r hr
    split
    · exact ⟨hlt, hnone⟩
    · split
      · exact ⟨hlt, hnone⟩
      · refine ⟨hlt, ?_⟩
        unfold findRow at hnone ⊢
        rw [List.find?_eq_none] at hnone ⊢
        intro x hx
        rcases List.mem_map.1 hx with ⟨y, hy, hfy⟩
        by_cases hyid : (y.id == id2) = true
        · rw [if_pos hyid] at hfy
          subst hfy
          simpa [applyPatch] using hnone r (findRow_mem hr).1
        · rw [if_neg hyid] at hfy
          subst hfy
          exact hnone y hy

theorem delete_product_absent {id : Nat} {st : Store} {id2 : Nat}
    (h : absentFrom id st) : absentFrom id ((delete_product st id2).2) := by
  obtain ⟨hwf, hlt, hnone⟩ := h
  refine ⟨delete_product_WF hwf, ?_⟩
  unfold delete_product
  split
  · exact ⟨hlt, hnone⟩
  · refine ⟨hlt, ?_⟩
    unfold findRow at hnone ⊢
    exact List.Sublist.find?_eq_none (List.filter_sublist _) hnone

theorem step_absent {id : Nat} {st : Store} {rq : Request} {now : Nat}
    (h : absentFrom id st) : absentFrom id ((step st rq now).2) := by
  cases rq with
  | createP d => exact create_product_absent h
  | getP i =>
    show absentFrom id ((get_product st i).2)
    unfold get_product
    split
    · exact h
    · exact h
  | listP => exact h
  | updateP i d => exact update_product_absent h
  | deleteP i => exact delete_product_absent h
  | createO pid qty =>
    show absentFrom id ((create_order st pid qty now).2)
    unfold create_order
    split
    · exact h
    · exact h

theorem run_absent {id : Nat} {st : Store} (h : absentFrom id st) :
    ∀ rqs : List (Request × Nat), absentFrom id (run st rqs) := by
  intro rqs
  induction rqs generalizing st with
  | nil => exact h
  | cons hd tl ih => exact ih (step_absent h)

/-! ### Claim theorems -/

/-- C1 (evaluation at the failing input): `float("nan")` parses, and
`nan <= 0` is false, so create with price `"nan"` passes validation and
persists a row whose price is NaN — for which `price > 0` is false.
The claimed invariant is violated by a reachable write: the operation
neither rejects the input nor writes a row satisfying the predicate. -/
theorem nan_price_bypasses_validation :
    parseFloat "nan" = some .nan ∧
      (PyFloat.nan.le0 = false) ∧
      create_product emptyStore [("name", .str "x"), ("price", .str "nan")] 0
        = (.created ⟨1, .str "x", .null, .nan, 0, 0, 0⟩,
            ⟨[⟨1, .str "x", .null, .nan, 0, 0, 0⟩], 2, [], 1⟩) ∧
      ¬ (⟨1, .str "x", .null, .nan, 0, 0, 0⟩ : Product).Valid := by
  decide

/-- C3: every mutating (or reading) request that produces an error
response leaves the store exactly as it was: all error branches return
the pre-operation store (`db.session.rollback()` discards the in-flight
changes, which are only committed on the success path). -/
theorem error_response_leaves_store_unchanged :
    ∀ (st : Store) (rq : Request) (now : Nat),
      ((step st rq now).1).isErr = true → (step st rq now).2 = st := by
  intro st rq now
  cases rq with
  | createP d => exact create_product_err
  | getP id => exact get_product_err
  | listP =>
    intro _
    rfl
  | updateP id d => exact update_product_err
  | deleteP id => exact delete_product_err
  | createO pid qty => exact create_order_err

/-- Witness for C3: a create with a non-positive price errors and leaves
the fresh store unchanged. -/
theorem error_response_leaves_store_unchanged_witness :
    ((step emptyStore (.createP [("name", .str "x"), ("price", .num 0)]) 0).1).isErr
        = true ∧
      (step emptyStore (.createP [("name", .str "x"), ("price", .num 0)]) 0).2
        = emptyStore :=
  ⟨by decide,
    error_response_leaves_store_unchanged emptyStore
      (.createP [("name", .str "x"), ("price", .num 0)]) 0 (by decide)⟩

/-- C2 (evaluation at the failing input): on a store with no row with
id 1, `PUT /api/products/1` and `DELETE /api/products/1` both return
HTTP 500 — not the claimed 404 — because the `NotFound` raised by
`get_or_404` is swallowed by the handlers' own `except Exception`
branch; the store is left unmodified. -/
theorem update_delete_missing_id_give_500 :
    update_product emptyStore 1 [] 0 = (.err 500 notFoundStr, emptyStore) ∧
      delete_product emptyStore 1 = (.err 500 notFoundStr, emptyStore) ∧
      (.err 500 notFoundStr : Resp) ≠ .err 404 notFoundStr := by
  decide

/-- C8: once `delete(id)` succeeds on a well-formed store, `get(id)`
returns 404 after any subsequent request sequence: the autoincrement
counter never re-issues the deleted id, so the absence is permanent
(in particular, immediately after the delete). -/
theorem deleted_id_stays_not_found {st st2 : Store} {id : Nat}
    (hwf : st.WF) (h : delete_product st id = (.noContent, st2)) :
    ∀ rqs : List (Request × Nat),
      (get_product (run st2 rqs) id).1 = .err 404 notFoundStr := by
  have habs : absentFrom id st2 := by
    obtain ⟨hlt, hnd⟩ := hwf
    unfold delete_product at h
    split at h
    · cases h
    · rename_i r hr
      cases h
      refine ⟨⟨?_, ?_⟩, ?_, ?_⟩
      · intro p hp
        exact hlt p (List.mem_of_mem_filter hp)
      · exact hnd.sublist (List.Sublist.map _ (List.filter_sublist _))
      · exact (findRow_mem hr).2 ▸ hlt r (findRow_mem hr).1
      · unfold findRow
        rw [List.find?_eq_none]
        intro x hx
        simpa using (List.mem_filter.1 hx).2
  intro rqs
  have h2 := run_absent habs rqs
  unfold get_product
  rw [h2.2.2]

/-- Witness for C8: deleting the only product of a one-row store and
then running another request still leaves `get` on that id a 404. -/
theorem deleted_id_stays_not_found_witness :
    (get_product (run ⟨[], 2, [], 1⟩ [(.listP, 3)]) 1).1 = .err 404 notFoundStr :=
  @deleted_id_stays_not_found
    ⟨[⟨1, .str "x", .null, .fin (mkRat 1 100), 0, 0, 0⟩], 2, [], 1⟩
    ⟨[], 2, [], 1⟩ 1 (by decide) (by decide) [(.listP, 3)]

/-- C4: on a well-formed store, a create whose fields pass validation
(name present, price coercing to a float that is not `<= 0`, stock
check passing) succeeds, and a get on the assigned id returns exactly
the created row; its name/description/price/stock agree with the input
fields and only the id and the two timestamps are server-assigned. -/
theorem create_then_get_roundtrip {st : Store} {d : JsonObj} {now : Nat}
    {pf : PyFloat} {stk : Int}
    (hwf : st.WF) (hname : (d.find? "name").isSome)
    (hq : pyFloat (d.getD "price") = .ok pf) (hqpos : pf.le0 = false)
    (hstk : checkStockCreate d = .ok stk) :
    ∃ p st2, create_product st d now = (.created p, st2) ∧
      get_product st2 p.id = (.okP p, st2) ∧
      p.name = d.getD "name" ∧ p.description = d.getD "description" ∧
      p.price = pf ∧ p.stock = stk ∧
      p.id = st.nextId ∧ p.created_at = now ∧ p.updated_at = now := by
  rcases Option.isSome_iff_exists.1 hname with ⟨nv, hnv⟩
  have hpvx : ∃ pv, d.find? "price" = some pv := by
    cases hpf : d.find? "price" with
    | none =>
      unfold JsonObj.getD at hq
      rw [hpf] at hq
      simp [pyFloat] at hq
    | some pv => exact ⟨pv, rfl⟩
  rcases hpvx with ⟨pv, hpv⟩
  have hcreate : create_product st d now =
      (.created ⟨st.nextId, d.getD "name", d.getD "description", pf, stk, now, now⟩,
        { st with
            rows := st.rows ++
              [⟨st.nextId, d.getD "name", d.getD "description", pf, stk, now, now⟩]
            nextId := st.nextId + 1 }) := by
    unfold create_product
    rw [hnv, hpv]
    rw [if_neg (by simp : ¬((some nv).isNone = true))]
    rw [if_neg (by simp : ¬((some pv).isNone = true))]
    rw [hq]
    show (if pf.le0 = true then _ else _) = _
    rw [hqpos]
    rw [hstk]
    rfl
  refine ⟨_, _, hcreate, ?_, rfl, rfl, rfl, rfl, rfl, rfl, rfl⟩
  have hfind : findRow
      { st with
          rows := st.rows ++
            [⟨st.nextId, d.getD "name", d.getD "description", pf, stk, now, now⟩]
          nextId := st.nextId + 1 }
      (st.nextId) = some ⟨st.nextId, d.getD "name", d.getD "description", pf, stk,
        now, now⟩ := by
    unfold findRow
    dsimp only
    exact findRow_append_fresh rfl (fun r hr => hwf.1 r hr)
  unfold get_product
  rw [hfind]

/-- Witness for C4: creating a product on the fresh store and reading
it back returns the same row. -/
theorem create_then_get_roundtrip_witness :
    ∃ p st2, create_product emptyStore
        [("name", .str "Test Product"), ("description", .str "A test product"),
          ("price", .num (mkRat 2999 100)), ("stock", .num 100)] 7
        = (.created p, st2) ∧
      get_product st2 p.id = (.okP p, st2) ∧
      p.name = JsonObj.getD [("name", .str "Test Product"),
        ("description", .str "A test product"),
        ("price", .num (mkRat 2999 100)), ("stock", .num 100)] "name" ∧
      p.description = JsonObj.getD [("name", .str "Test Product"),
        ("description", .str "A test product"),
        ("price", .num (mkRat 2999 100)), ("stock", .num 100)] "description" ∧
      p.price = .fin (mkRat 2999 100) ∧ p.stock = 100 ∧
      p.id = emptyStore.nextId ∧ p.created_at = 7 ∧ p.updated_at = 7 :=
  create_then_get_roundtrip (by decide) (by decide) (by decide) (by decide)
    (by decide)

theorem price_present_of_ok {d : JsonObj} {pf : PyFloat}
    (hq : pyFloat (d.getD "price") = .ok pf) :
    ∃ pv, d.find? "price" = some pv := by
  cases hpf : d.find? "price" with
  | none =>
    unfold JsonObj.getD at hq
    rw [hpf] at hq
    simp [pyFloat] at hq
  | some pv => exact ⟨pv, rfl⟩

/-- C5: `create` rejects every non-positive price with 400 "Price must
be greater than 0" and every negative stock with 400 "Stock cannot be
negative"; an omitted stock defaults to 0 in the created row; at the
boundary, price 0 falls under the first conjunct while price
`mkRat 1 100` — which is exactly the decimal 0.01 — succeeds. -/
theorem create_price_stock_validation :
    (∀ (st : Store) (d : JsonObj) (now : Nat) (pf : PyFloat),
      (d.find? "name").isSome → pyFloat (d.getD "price") = .ok pf →
      pf.le0 = true →
      create_product st d now =
        (.err 400 "Price must be greater than 0", st)) ∧
    (∀ (st : Store) (d : JsonObj) (now : Nat) (pf : PyFloat) (v : Value) (s : Int),
      (d.find? "name").isSome → pyFloat (d.getD "price") = .ok pf →
      pf.le0 = false →
      d.find? "stock" = some v → pyInt v = .ok s → s < 0 →
      create_product st d now =
        (.err 400 "Stock cannot be negative", st)) ∧
    (∀ (st : Store) (d : JsonObj) (now : Nat) (pf : PyFloat),
      (d.find? "name").isSome → pyFloat (d.getD "price") = .ok pf →
      pf.le0 = false →
      d.find? "stock" = none →
      create_product st d now =
        (.created ⟨st.nextId, d.getD "name", d.getD "description", pf, 0, now, now⟩,
          { st with
              rows := st.rows ++
                [⟨st.nextId, d.getD "name", d.getD "description", pf, 0, now, now⟩]
              nextId := st.nextId + 1 })) ∧
    (∀ (st : Store) (now : Nat),
      create_product st [("name", .str "Test"), ("price", .num (mkRat 1 100))] now
        = (.created ⟨st.nextId, .str "Test", .null, .fin (mkRat 1 100), 0, now, now⟩,
          { st with
              rows := st.rows ++
                [⟨st.nextId, .str "Test", .null, .fin (mkRat 1 100), 0, now, now⟩]
              nextId := st.nextId + 1 })) ∧
    mkRat 1 100 = (0.01 : ℚ) := by
  refine ⟨?_, ?_, ?_, ?_, ?_⟩
  · intro st d now pf hname hq hle
    rcases Option.isSome_iff_exists.1 hname with ⟨nv, hnv⟩
    rcases price_present_of_ok hq with ⟨pv, hpv⟩
    unfold create_product
    rw [hnv, hpv]
    rw [if_neg (by simp : ¬((some nv).isNone = true))]
    rw [if_neg (by simp : ¬((some pv).isNone = true))]
    rw [hq]
    show (if pf.le0 = true then _ else _) = _
    rw [if_pos hle]
  · intro st d now pf v s hname hq hle0 hv hs hneg
    rcases Option.isSome_iff_exists.1 hname with ⟨nv, hnv⟩
    rcases price_present_of_ok hq with ⟨pv, hpv⟩
    have hstk : checkStockCreate d = .error (.vErr "Stock cannot be negative") := by
      simp only [checkStockCreate, checkStockCreateVal, hv, hs]
      rw [if_pos hneg]
    unfold create_product
    rw [hnv, hpv]
    rw [if_neg (by simp : ¬((some nv).isNone = true))]
    rw [if_neg (by simp : ¬((some pv).isNone = true))]
    rw [hq]
    show (if pf.le0 = true then _ else _) = _
    rw [hle0, hstk]
    rfl
  · intro st d now pf hname hq hle0 hnostock
    rcases Option.isSome_iff_exists.1 hname with ⟨nv, hnv⟩
    rcases price_present_of_ok hq with ⟨pv, hpv⟩
    unfold create_product
    rw [hnv, hpv]
    rw [if_neg (by simp : ¬((some nv).isNone = true))]
    rw [if_neg (by simp : ¬((some pv).isNone = true))]
    rw [hq]
    show (if pf.le0 = true then _ else _) = _
    rw [hle0, checkStockCreate_none hnostock]
    rfl
  · intro st now
    rfl
  · rw [show (0.01 : ℚ) = Rat.ofScientific 1 true 2 from rfl, Rat.ofScientific_def]
    decide

/-- Witness for C5: price 0 is rejected, stock -1 is rejected, and a
create without stock persists stock 0, all on the fresh store. -/
theorem create_price_stock_validation_witness :
    create_product emptyStore [("name", .str "Test"), ("price", .num 0)] 0
      = (.err 400 "Price must be greater than 0", emptyStore) ∧
    create_product emptyStore
        [("name", .str "Test"), ("price", .num (mkRat 10 1)),
          ("stock", .num (mkRat (-1) 1))] 0
      = (.err 400 "Stock cannot be negative", emptyStore) ∧
    create_product emptyStore [("name", .str "Test"), ("price", .num (mkRat 10 1))] 0
      = (.created ⟨1, .str "Test", .null, .fin (mkRat 10 1), 0, 0, 0⟩,
          ⟨[⟨1, .str "Test", .null, .fin (mkRat 10 1), 0, 0, 0⟩], 2, [], 1⟩) :=
  ⟨create_price_stock_validation.1 emptyStore
      [("name", .str "Test"), ("price", .num 0)] 0 (.fin 0)
      (by decide) (by decide) (by decide),
    create_price_stock_validation.2.1 emptyStore
      [("name", .str "Test"), ("price", .num (mkRat 10 1)),
        ("stock", .num (mkRat (-1) 1))] 0 (.fin (mkRat 10 1))
      (.num (mkRat (-1) 1)) (-1)
      (by decide) (by decide) (by decide) (by decide) (by decide) (by decide),
    create_price_stock_validation.2.2.1 emptyStore
      [("name", .str "Test"), ("price", .num (mkRat 10 1))] 0 (.fin (mkRat 10 1))
      (by decide) (by decide) (by decide) (by decide)⟩

theorem checkPriceUpdate_some {d : JsonObj} {v : Value} {po : Option PyFloat}
    (hv : d.find? "price" = some v) (h : checkPriceUpdate d = .ok po) :
    ∃ pf, pyFloat v = .ok pf ∧ po = some pf := by
  unfold checkPriceUpdate at h
  rw [hv] at h
  have h2 : checkPriceVal v = .ok po := h
  unfold checkPriceVal at h2
  cases hpf : pyFloat v with
  | error e =>
    rw [hpf] at h2
    cases h2
  | ok pf =>
    rw [hpf] at h2
    have h3 : (if pf.le0 = true
          then Except.error (PyErr.vErr "Price must be greater than 0")
        else Except.ok (some pf)) = Except.ok po := h2
    by_cases hle : pf.le0 = true
    · rw [if_pos hle] at h3
      cases h3
    · rw [if_neg hle] at h3
      cases h3
      exact ⟨pf, rfl, rfl⟩

theorem checkStockUpdate_some {d : JsonObj} {v : Value} {so : Option Int}
    (hv : d.find? "stock" = some v) (h : checkStockUpdate d = .ok so) :
    ∃ s, pyInt v = .ok s ∧ so = some s := by
  unfold checkStockUpdate at h
  rw [hv] at h
  have h2 : checkStockVal v = .ok so := h
  unfold checkStockVal at h2
  cases hpf : pyInt v with
  | error e =>
    rw [hpf] at h2
    cases h2
  | ok s =>
    rw [hpf] at h2
    have h3 : (if s < 0 then Except.error (PyErr.vErr "Stock cannot be negative")
        else Except.ok (some s)) = Except.ok so := h2
    by_cases hlt : s < 0
    · rw [if_pos hlt] at h3
      cases h3
    · rw [if_neg hlt] at h3
      cases h3
      exact ⟨s, rfl, rfl⟩

/-- C6: a successful update applies exactly the fields present in the
patch: the committed row takes name/description from the patch when
present, price/stock from the coerced patch values when present, and
keeps the prior value of every absent field; id and created_at are
untouched, updated_at is refreshed, and only the row with the given id
changes in the store. -/
theorem update_applies_only_patch_fields :
    ∀ (st : Store) (id : Nat) (d : JsonObj) (now : Nat) (r : Product)
      (po : Option PyFloat) (so : Option Int),
      findRow st id = some r →
      checkPriceUpdate d = .ok po → checkStockUpdate d = .ok so →
      update_product st id d now =
        (.okP (applyPatch r d po so now),
          { st with rows :=
              (st.rows.map
                (fun x => if x.id == id then applyPatch r d po so now else x)) }) ∧
      (applyPatch r d po so now).name = (d.find? "name").getD r.name ∧
      (applyPatch r d po so now).description
        = (d.find? "description").getD r.description ∧
      (d.find? "name" = none → (applyPatch r d po so now).name = r.name) ∧
      (d.find? "description" = none →
        (applyPatch r d po so now).description = r.description) ∧
      (d.find? "price" = none → (applyPatch r d po so now).price = r.price) ∧
      (d.find? "stock" = none → (applyPatch r d po so now).stock = r.stock) ∧
      (∀ v, d.find? "price" = some v →
        pyFloat v = .ok ((applyPatch r d po so now).price)) ∧
      (∀ v, d.find? "stock" = some v →
        pyInt v = .ok ((applyPatch r d po so now).stock)) ∧
      (applyPatch r d po so now).id = r.id ∧
      (applyPatch r d po so now).created_at = r.created_at ∧
      (applyPatch r d po so now).updated_at = now := by
  intro st id d now r po so hfind hpo hso
  refine ⟨?_, rfl, rfl, ?_, ?_, ?_, ?_, ?_, ?_, rfl, rfl, rfl⟩
  · simp only [update_product, hfind, hpo, hso]
  · intro h
    show (d.find? "name").getD r.name = r.name
    rw [h]
    rfl
  · intro h
    show (d.find? "description").getD r.description = r.description
    rw [h]
    rfl
  · intro h
    have h2 := (checkPriceUpdate_none h).symm.trans hpo
    cases h2
    rfl
  · intro h
    have h2 := (checkStockUpdate_none h).symm.trans hso
    cases h2
    rfl
  · intro v hv
    rcases checkPriceUpdate_some hv hpo with ⟨q2, hq2, rfl⟩
    exact hq2
  · intro v hv
    rcases checkStockUpdate_some hv hso with ⟨s2, hs2, rfl⟩
    exact hs2

/-- Witness for C6: the spec's scenario — updating only the price of a
product created with stock 100 leaves stock at 100 and refreshes
updated_at. -/
theorem update_applies_only_patch_fields_witness :
    update_product
        ⟨[⟨1, .str "Test Product", .null, .fin (mkRat 2999 100), 100, 0, 0⟩],
          2, [], 1⟩
        1 [("price", .num (mkRat 3999 100))] 9
      = (.okP ⟨1, .str "Test Product", .null, .fin (mkRat 3999 100), 100, 0, 9⟩,
          ⟨[⟨1, .str "Test Product", .null, .fin (mkRat 3999 100), 100, 0, 9⟩],
            2, [], 1⟩) :=
  (update_applies_only_patch_fields
      ⟨[⟨1, .str "Test Product", .null, .fin (mkRat 2999 100), 100, 0, 0⟩],
        2, [], 1⟩
      1 [("price", .num (mkRat 3999 100))] 9
      ⟨1, .str "Test Product", .null, .fin (mkRat 2999 100), 100, 0, 0⟩
      (some (.fin (mkRat 3999 100))) none (by decide) (by decide) (by decide)).1

/-- C7 (counterexample): on input `{}` create does reject with 400 and
writes no row, but the body message is "Missing required field: name" —
capitalized — which is not the claimed "missing required field: name". -/
theorem create_missing_field_message_counterexample :
    create_product emptyStore [] 0
        = (.err 400 "Missing required field: name", emptyStore) ∧
      (.err 400 "Missing required field: name" : Resp)
        ≠ .err 400 "missing required field: name" := by
  decide

/-- C7 (amended): create requires `name` and `price`; if `name` is
absent it fails with 400 and the message "Missing required field: name",
and if `name` is present but `price` absent, with
"Missing required field: price"; in both cases no row is written. -/
theorem create_missing_required_field :
    ∀ (st : Store) (d : JsonObj) (now : Nat),
      (d.find? "name" = none →
        create_product st d now
          = (.err 400 "Missing required field: name", st)) ∧
      ((d.find? "name").isSome → d.find? "price" = none →
        create_product st d now
          = (.err 400 "Missing required field: price", st)) := by
  intro st d now
  constructor
  · intro h
    unfold create_product
    rw [h]
    rfl
  · intro hname hp
    rcases Option.isSome_iff_exists.1 hname with ⟨nv, hnv⟩
    unfold create_product
    rw [hnv, hp]
    rw [if_neg (by simp : ¬((some nv).isNone = true))]
    rfl

/-- Witness for C7: the two rejections at concrete inputs. -/
theorem create_missing_required_field_witness :
    create_product emptyStore [("description", .str "Missing name and price")] 0
        = (.err 400 "Missing required field: name", emptyStore) ∧
      create_product emptyStore [("name", .str "Test")] 0
        = (.err 400 "Missing required field: price", emptyStore) :=
  ⟨(create_missing_required_field emptyStore
      [("description", .str "Missing name and price")] 0).1 (by decide),
    (create_missing_required_field emptyStore [("name", .str "Test")] 0).2
      (by decide) (by decide)⟩

theorem ratMul_eq_mul (a b : ℚ) : ratMul a b = a * b := by
  unfold ratMul
  rw [Rat.mul_def, Rat.normalize_eq_mkRat]

/-- C9: at order creation the stored total_price is the product's price
times the quantity (on finite prices, exactly rational multiplication),
computed once: subsequent product updates leave order rows untouched,
so the snapshot is not recomputed.  At the representative values —
price 29.99 (`.fin (mkRat 2999 100)`) and quantity 2 — the total is
exactly `.fin (mkRat 5998 100)`, and `mkRat 5998 100` is the decimal
59.98. -/
theorem order_total_price_snapshot :
    (∀ (st : Store) (pid : Nat) (qty : Int) (now : Nat) (o : OrderRow)
        (st2 : Store),
      create_order st pid qty now = (.createdO o, st2) →
      ∃ p, findRow st pid = some p ∧ o.total_price = p.price.mulInt qty ∧
        o.created_at = now ∧ st2.rows = st.rows ∧
        st2.orders = st.orders ++ [o]) ∧
    (∀ (qf : ℚ) (qty : Int),
      (PyFloat.fin qf).mulInt qty = .fin (qf * (qty : ℚ))) ∧
    (∀ (st : Store) (id : Nat) (d : JsonObj) (now : Nat),
      ((update_product st id d now).2).orders = st.orders) ∧
    ((create_order
        ⟨[⟨1, .str "Test Product", .null, .fin (mkRat 2999 100), 100, 0, 0⟩],
          2, [], 1⟩
        1 2 3).1
      = .createdO ⟨1, 1, 2, .fin (mkRat 5998 100), 3⟩) ∧
    mkRat 5998 100 = (59.98 : ℚ) := by
  refine ⟨?_, ?_, ?_, ?_, ?_⟩
  · intro st pid qty now o st2 h
    unfold create_order at h
    split at h
    · cases h
    · rename_i p hp
      cases h
      exact ⟨p, hp, rfl, rfl, rfl, rfl⟩
  · intro qf qty
    show PyFloat.fin (ratMul qf (qty : ℚ)) = .fin (qf * (qty : ℚ))
    rw [ratMul_eq_mul]
  · intro st id d now
    unfold update_product
    split
    · rfl
    · split
      · rfl
      · split
        · rfl
        · rfl
  · decide
  · rw [show (59.98 : ℚ) = Rat.ofScientific 5998 true 2 from rfl,
      Rat.ofScientific_def]
    decide

/-- Witness for C9: creating an order for the product with price 29.99
and quantity 2 records total 59.98 and copies it into the order table. -/
theorem order_total_price_snapshot_witness :
    ∃ p, findRow
        ⟨[⟨1, .str "Test Product", .null, .fin (mkRat 2999 100), 100, 0, 0⟩],
          2, [], 1⟩
        1 = some p ∧
      (⟨1, 1, 2, .fin (mkRat 5998 100), 3⟩ : OrderRow).total_price
        = p.price.mulInt 2 ∧
      (⟨1, 1, 2, .fin (mkRat 5998 100), 3⟩ : OrderRow).created_at = 3 ∧
      (⟨[⟨1, .str "Test Product", .null, .fin (mkRat 2999 100), 100, 0, 0⟩], 2,
          [⟨1, 1, 2, .fin (mkRat 5998 100), 3⟩], 2⟩ : Store).rows
        = (⟨[⟨1, .str "Test Product", .null, .fin (mkRat 2999 100), 100, 0, 0⟩],
            2, [], 1⟩ : Store).rows ∧
      (⟨[⟨1, .str "Test Product", .null, .fin (mkRat 2999 100), 100, 0, 0⟩], 2,
          [⟨1, 1, 2, .fin (mkRat 5998 100), 3⟩], 2⟩ : Store).orders
        = (⟨[⟨1, .str "Test Product", .null, .fin (mkRat 2999 100), 100, 0, 0⟩],
            2, [], 1⟩ : Store).orders ++ [⟨1, 1, 2, .fin (mkRat 5998 100), 3⟩] :=
  order_total_price_snapshot.1
    ⟨[⟨1, .str "Test Product", .null, .fin (mkRat 2999 100), 100, 0, 0⟩],
      2, [], 1⟩
    1 2 3 ⟨1, 1, 2, .fin (mkRat 5998 100), 3⟩
    ⟨[⟨1, .str "Test Product", .null, .fin (mkRat 2999 100), 100, 0, 0⟩], 2,
      [⟨1, 1, 2, .fin (mkRat 5998 100), 3⟩], 2⟩ (by decide)

example : parseFloat "29.99" = some (.fin (mkRat 2999 100)) := by decide
example : parseFloat "abc" = none := by decide
example : parseFloat " -1.5e2 " = some (.fin (mkRat (-150) 1)) := by decide
example : parseFloat "" = none := by decide
example : parseFloat "nan" = some .nan := by decide
example : parseFloat "NaN" = some .nan := by decide
example : parseFloat "inf" = some .inf := by decide
example : parseFloat "-Infinity" = some .ninf := by decide
example : parseFloat "1_5" = some (.fin 15) := by decide
example : parseFloat "1_000.000_1e1_0" = some (.fin (mkRat 10000001000000 1)) := by
  decide
example : parseFloat "_5" = none := by decide
example : parseFloat "5_" = none := by decide
example : parseFloat "5__0" = none := by decide
example : parseFloat "1_.5" = none := by decide
example : parseIntStr "5" = some 5 := by decide
example : parseIntStr "5.5" = none := by decide
example : parseIntStr "1_0" = some 10 := by decide
example : parseIntStr "1_" = none := by decide
example : pyInt (.num (mkRat 2999 100)) = .ok 29 := by decide
example : ((mkRat 1 100 : ℚ) ≤ 0) = False := by decide
example : mkRat 2999 100 = (29.99 : ℚ) := by
  rw [show (29.99 : ℚ) = Rat.ofScientific 2999 true 2 from rfl, Rat.ofScientific_def]
  decide

example : create_product emptyStore [] 0 =
    (.err 400 "Missing required field: name", emptyStore) := by decide
example : create_product emptyStore [("name", .str "x"), ("price", .num (mkRat 1 100))] 5 =
    (.created ⟨1, .str "x", .null, .fin (mkRat 1 100), 0, 5, 5⟩,
      ⟨[⟨1, .str "x", .null, .fin (mkRat 1 100), 0, 5, 5⟩], 2, [], 1⟩) := by decide
example : update_product emptyStore 1 [] 0 = (.err 500 notFoundStr, emptyStore) := by decide
example : delete_product emptyStore 1 = (.err 500 notFoundStr, emptyStore) := by decide
example :
    (create_product emptyStore [("name", .str "x"), ("price", .str "abc")] 0).1 =
      .err 400 (floatErrMsg "abc") := by decide

end ECom
